import Mathlib

set_option maxRecDepth 100000

/-!
Verification of the nmimgr NMI-management module (src/nmimgr.c) against its
natural-language specification.

The embedding follows the C source:
* `__nmimgr_handle` (nmimgr.c:128-171) becomes a pure function from the two
  configured event arrays, the NMI type and the reason byte to an outcome
  together with the list of log lines it emits.  The non-returning
  `panic()` call is modelled as the distinct terminal outcome `PanicHalt`.
* The event arrays `events_panic_list` / `events_ignore_list`
  (nmimgr.c:80-81) are `int[256]` statics, zero-initialized; we model each
  as a total function `Nat → Int` whose slots past the filled region are 0,
  exactly like the C arrays.
* `get_options` (from lib/cmdline.c) is not part of this repository's
  sources, so the range-list parser is modelled from the spec (see `parse`).
* The registration host calls `register_nmi_handler` /
  `unregister_nmi_handler` are abstracted by a return-code oracle
  `regRet : Nat → Int` (0 = success), and the set of currently-bound NMI
  types is threaded explicitly so that rollback can be observed.

`pr_debug` lines are compiled out in a default build and are not modelled;
`pr_notice` / `pr_emerg` / `pr_err` / `pr_info` lines are modelled as
`LogEntry` values.
-/

/-- Return value of the NMI handler, plus the terminal `panic()` action.
`NMI_HANDLED` is the "handled / consumed" value, `NMI_DONE` the "done /
defer to other handlers" value; `PanicHalt` models the non-returning
`panic("NMIMGR: Hit explicit panic reason")` call as a terminal outcome. -/
inductive Outcome : Type
  | NMI_HANDLED : Outcome
  | NMI_DONE : Outcome
  | PanicHalt : Outcome

/-- The always-on log lines of `__nmimgr_handle` (nmimgr.c:133,142,154,167). -/
inductive LogEntry : Type
  | handling (type : Nat) (reason : Nat) : LogEntry
  | ignoreDrop (reason : Nat) : LogEntry
  | panicEmerg (reason : Nat) : LogEntry
  | unmanaged (reason : Nat) : LogEntry

/-- The module's mutable configuration state: the two `int[256]` arrays
`events_panic_list` and `events_ignore_list` (nmimgr.c:80-81), modelled as
total functions on slot indices.  Static C arrays are zero-initialized. -/
structure NmimgrState : Type where
  events_panic_list : Nat → Int
  events_ignore_list : Nat → Int

/-- The state at load time: both arrays all zero. -/
def initState : NmimgrState :=
  { events_panic_list := fun _ => 0, events_ignore_list := fun _ => 0 }

/-- The array contents produced by filling slots from a parsed value list,
`get_options` style: slot 0 holds the count, slots `1..vals.length` hold the
values, and every remaining slot keeps its zero default. -/
def slotsOf (vals : List Nat) (i : Nat) : Int :=
  if i = 0 then (vals.length : Int)
  else ((vals.getD (i - 1) 0 : Nat) : Int)

/-- The scan both match loops of `__nmimgr_handle` perform: compare `reason`
against slots `1 ≤ i < 256` (`for(i=1; i<NMIMGR_NBMAX; i++)`,
nmimgr.c:136,148), ignoring slot 0 and ignoring any notion of filled count. -/
def nmi_list_match (l : Nat → Int) (reason : Nat) : Bool :=
  (List.range' 1 255).any (fun i => (reason : Int) == l i)

/-- Membership of a reason code in a category as the code's loops see it:
some scanned slot (index 1..255) holds the reason value. -/
def InList (l : Nat → Int) (reason : Nat) : Prop :=
  ∃ i, 1 ≤ i ∧ i ≤ 255 ∧ l i = (reason : Int)

/-- The triage engine, `__nmimgr_handle` (nmimgr.c:128-171).  It first logs
the entry notice, then scans the ignore list (returning `NMI_HANDLED` on a
match), then the panic list (calling `panic()` on a match, modelled as the
terminal `PanicHalt`), and otherwise logs and returns `NMI_DONE`. -/
def __nmimgr_handle (st : NmimgrState) (type : Nat) (reason : Nat) :
    Outcome × List LogEntry :=
  let entry := LogEntry.handling type reason
  if nmi_list_match st.events_ignore_list reason then
    (Outcome.NMI_HANDLED, [entry, LogEntry.ignoreDrop reason])
  else if nmi_list_match st.events_panic_list reason then
    (Outcome.PanicHalt, [entry, LogEntry.panicEmerg reason])
  else
    (Outcome.NMI_DONE, [entry, LogEntry.unmanaged reason])

theorem nmi_list_match_iff (l : Nat → Int) (r : Nat) :
    nmi_list_match l r = true ↔ InList l r := by
  unfold nmi_list_match InList
  rw [List.any_eq_true]
  constructor
  · rintro ⟨i, hi, hb⟩
    rw [List.mem_range'_1] at hi
    exact ⟨i, hi.1, by omega, (beq_iff_eq.mp hb).symm⟩
  · rintro ⟨i, h1, h2, he⟩
    exact ⟨i, List.mem_range'_1.mpr ⟨h1, by omega⟩, beq_iff_eq.mpr he.symm⟩

/-- On an ignore-list match the handler returns `NMI_HANDLED` having logged
exactly the entry notice and the ignore-drop notice. -/
theorem handle_of_ignore (st : NmimgrState) (t r : Nat)
    (h : InList st.events_ignore_list r) :
    __nmimgr_handle st t r =
      (Outcome.NMI_HANDLED, [LogEntry.handling t r, LogEntry.ignoreDrop r]) := by
  unfold __nmimgr_handle
  rw [if_pos ((nmi_list_match_iff _ _).mpr h)]

/-- On a panic-list match that the ignore list misses, the handler reaches
`panic()` (the terminal halt). -/
theorem handle_of_panic (st : NmimgrState) (t r : Nat)
    (hp : InList st.events_panic_list r)
    (hi : ¬ InList st.events_ignore_list r) :
    __nmimgr_handle st t r =
      (Outcome.PanicHalt, [LogEntry.handling t r, LogEntry.panicEmerg r]) := by
  unfold __nmimgr_handle
  rw [if_neg, if_pos ((nmi_list_match_iff _ _).mpr hp)]
  intro hc
  exact hi ((nmi_list_match_iff _ _).mp hc)

/-- When neither list matches, the handler logs and returns `NMI_DONE`. -/
theorem handle_of_neither (st : NmimgrState) (t r : Nat)
    (hi : ¬ InList st.events_ignore_list r)
    (hp : ¬ InList st.events_panic_list r) :
    __nmimgr_handle st t r =
      (Outcome.NMI_DONE, [LogEntry.handling t r, LogEntry.unmanaged r]) := by
  unfold __nmimgr_handle
  rw [if_neg, if_neg]
  · intro hc; exact hp ((nmi_list_match_iff _ _).mp hc)
  · intro hc; exact hi ((nmi_list_match_iff _ _).mp hc)

/-- A nonzero reason code absent from the configured value list matches no
scanned slot: the filled slots hold other values and the residual slots
hold the zero default. -/
theorem not_InList_slotsOf (vals : List Nat) (r : Nat)
    (h0 : r ≠ 0) (hmem : r ∉ vals) : ¬ InList (slotsOf vals) r := by
  rintro ⟨i, h1, h2, he⟩
  unfold slotsOf at he
  rw [if_neg (by omega)] at he
  by_cases hlt : i - 1 < vals.length
  · rw [List.getD_eq_getElem _ _ hlt] at he
    exact hmem (Nat.cast_inj.mp he ▸ List.getElem_mem hlt)
  · rw [List.getD_eq_default _ _ (by omega)] at he
    exact h0 (Nat.cast_inj.mp he).symm

/-! ## Range-list parser

`__nmimgr_handle`'s configuration arrives through `nmimgr_setup_panic` /
`nmimgr_setup_ignore` (nmimgr.c:306-337), which delegate the actual string
parsing to the kernel's `get_options` (lib/cmdline.c).  That function is not
part of this repository's sources, so the parser below is modelled from the
spec. -/

/-- Errors of the range-list parser, per the spec's taxonomy: malformed
token, out-of-domain value, capacity overflow. -/
inductive ParseError : Type
  | malformed (tok : String) : ParseError
  | domain (tok : String) : ParseError
  | overflow : ParseError
deriving DecidableEq

instance {ε α : Type} [DecidableEq ε] [DecidableEq α] : DecidableEq (Except ε α) :=
  fun x y =>
    match x, y with
    | Except.ok a, Except.ok b =>
      if h : a = b then isTrue (by rw [h])
      else isFalse (by intro hc; cases hc; exact h rfl)
    | Except.error a, Except.error b =>
      if h : a = b then isTrue (by rw [h])
      else isFalse (by intro hc; cases hc; exact h rfl)
    | Except.ok _, Except.error _ => isFalse (by intro hc; cases hc)
    | Except.error _, Except.ok _ => isFalse (by intro hc; cases hc)

/-- Split a character list at every occurrence of the separator `c`; the
result always has at least one (possibly empty) segment, like the usual
string split. -/
def splitOnChar (c : Char) : List Char → List (List Char)
  | [] => [[]]
  | x :: xs =>
    match splitOnChar c xs with
    | [] => [[x]]
    | t :: ts => if x = c then [] :: t :: ts else (x :: t) :: ts

/-- The numeric value of a decimal digit character, if it is one. -/
def digitVal (ch : Char) : Option Nat :=
  if 48 ≤ ch.toNat ∧ ch.toNat ≤ 57 then some (ch.toNat - 48) else none

/-- Accumulate decimal digits left to right; any non-digit yields `none`. -/
def digitsVal : List Char → Nat → Option Nat
  | [], acc => some acc
  | ch :: cs, acc =>
    match digitVal ch with
    | some d => digitsVal cs (10 * acc + d)
    | none => none

/-- A non-empty all-digit character list read as a decimal natural. -/
def decimalNat (cs : List Char) : Option Nat :=
  match cs with
  | [] => none
  | _ :: _ => digitsVal cs 0

/-- Modelled from the spec: one comma-separated token is either a single
decimal integer or an inclusive range `a-b` with `a ≤ b`; non-numeric text,
a reversed range or a missing operand is a parse error, and values outside
the ReasonCode domain [0,255] are a domain error. -/
def parseToken (tok : List Char) : Except ParseError (List Nat) :=
  match splitOnChar '-' tok with
  | [a] =>
    match decimalNat a with
    | some n =>
      if n ≤ 255 then Except.ok [n]
      else Except.error (ParseError.domain (String.mk tok))
    | none => Except.error (ParseError.malformed (String.mk tok))
  | [a, b] =>
    match decimalNat a, decimalNat b with
    | some x, some y =>
      if x ≤ y then
        if y ≤ 255 then Except.ok (List.range' x (y - x + 1))
        else Except.error (ParseError.domain (String.mk tok))
      else Except.error (ParseError.malformed (String.mk tok))
    | _, _ => Except.error (ParseError.malformed (String.mk tok))
  | _ => Except.error (ParseError.malformed (String.mk tok))

/-- Modelled from the spec: fold over the token list, accumulating the
expanded values; a range contributes `b-a+1` toward the capacity count
(255 = 256 entries minus the reserved count slot), exceeding it is an
overflow error, and the output set is deduplicated. -/
def parseGo : List (List Char) → Nat → List Nat → Except ParseError (List Nat)
  | [], _, acc => Except.ok acc
  | tok :: rest, cnt, acc =>
    match parseToken tok with
    | Except.error e => Except.error e
    | Except.ok vs =>
      if 255 < cnt + vs.length then Except.error ParseError.overflow
      else parseGo rest (cnt + vs.length) (acc ++ vs.filter (fun v => !(acc.contains v)))

/-- Modelled from the spec: parse a comma-separated list/range expression
into the expanded, deduplicated set of reason codes.  Empty or absent input
yields the empty set, not an error. -/
def parse (s : String) : Except ParseError (List Nat) :=
  match s.data with
  | [] => Except.ok []
  | cs => parseGo (splitOnChar ',' cs) 0 []

/-- `nmimgr_setup_panic` (nmimgr.c:306-318): parse the panic list into
`events_panic_list`.  On success the array holds the parsed values
(`get_options` layout) and the function returns 1; on a parse error it logs
`pr_err` and returns 0, leaving the array untouched (the parser is modelled
atomically per the spec: a complete set or an error, nothing partial). -/
def nmimgr_setup_panic (st : NmimgrState) (str : String) : NmimgrState × Int :=
  match parse str with
  | Except.ok vals => ({ st with events_panic_list := slotsOf vals }, 1)
  | Except.error _ => (st, 0)

/-- `nmimgr_setup_ignore` (nmimgr.c:325-336): same as `nmimgr_setup_panic`
for `events_ignore_list`. -/
def nmimgr_setup_ignore (st : NmimgrState) (str : String) : NmimgrState × Int :=
  match parse str with
  | Except.ok vals => ({ st with events_ignore_list := slotsOf vals }, 1)
  | Except.error _ => (st, 0)

/-! ## Registration coordinator -/

/-- NMI type enumeration of the host (linux/nmi.h, not in src/): modelled
from the spec's fixed host-defined source enumeration. -/
def NMI_LOCAL : Nat := 0

/-- Host NMI type: unknown-reason NMIs. -/
def NMI_UNKNOWN : Nat := 1

/-- Host NMI type: system-error NMIs. -/
def NMI_SERR : Nat := 2

/-- Host NMI type: io-check NMIs. -/
def NMI_IO_CHECK : Nat := 3

/-- One past the last host NMI type. -/
def NMI_MAX : Nat := 4

/-- The rollback loop of `nmimgr_register` (nmimgr.c:276-279):
`for(; i>0; i--) unregister_nmi_handler(i, ...)` unbinds types `i` down to
1, in reverse registration order. -/
def rollback_unregister : Nat → List Nat → List Nat
  | 0, bound => bound
  | i + 1, bound => rollback_unregister i (bound.erase (i + 1))

/-- `nmimgr_register` (nmimgr.c:229-282, kernel ≥ 3.5 configuration): bind
the handler to NMI_UNKNOWN, NMI_SERR, NMI_IO_CHECK in order; on the first
host failure (`regRet t ≠ 0`), set `i` to the previous type and run the
rollback loop before returning the host's error code.  The result pairs
the returned code with the list of types bound after the call. -/
def nmimgr_register (regRet : Nat → Int) : Int × List Nat :=
  if regRet NMI_UNKNOWN = 0 then
    if regRet NMI_SERR = 0 then
      if regRet NMI_IO_CHECK = 0 then
        (0, [NMI_UNKNOWN, NMI_SERR, NMI_IO_CHECK])
      else
        (regRet NMI_IO_CHECK,
          rollback_unregister (NMI_IO_CHECK - 1) [NMI_UNKNOWN, NMI_SERR])
    else (regRet NMI_SERR, rollback_unregister (NMI_SERR - 1) [NMI_UNKNOWN])
  else (regRet NMI_UNKNOWN, rollback_unregister (NMI_UNKNOWN - 1) [])

/-! ## Parser lemmas -/

/-- C1: every reason code in the Ignore category (some scanned slot of
`events_ignore_list` holds it) makes `__nmimgr_handle` return
`NMI_HANDLED`, the handled/consumed value, regardless of membership in the
Panic list (the state is universally quantified, so the panic list is
arbitrary); the panic path is never reached: no `pr_emerg` panic log is
emitted. -/
theorem C1_ignore_wins (st : NmimgrState) (t r : Nat)
    (h : InList st.events_ignore_list r) :
    (__nmimgr_handle st t r).1 = Outcome.NMI_HANDLED ∧
    LogEntry.panicEmerg r ∉ (__nmimgr_handle st t r).2 := by
  rw [handle_of_ignore st t r h]
  exact ⟨rfl, by simp⟩

/-- C1 witness: reason 99 listed in both Ignore and Panic is still
handled and produces no panic log. -/
theorem C1_witness :
    InList (NmimgrState.events_ignore_list
      { events_panic_list := slotsOf [99], events_ignore_list := slotsOf [99] }) 99 ∧
    (__nmimgr_handle
      { events_panic_list := slotsOf [99], events_ignore_list := slotsOf [99] }
      2 99).1 = Outcome.NMI_HANDLED ∧
    LogEntry.panicEmerg 99 ∉ (__nmimgr_handle
      { events_panic_list := slotsOf [99], events_ignore_list := slotsOf [99] }
      2 99).2 := by
  have h : InList (NmimgrState.events_ignore_list
      { events_panic_list := slotsOf [99], events_ignore_list := slotsOf [99] }) 99 :=
    ⟨1, by decide, by decide, by decide⟩
  exact ⟨h, C1_ignore_wins _ 2 99 h⟩

/-- C2 counterexample: the claim says an ignored event is processed with no
log line and without being consumed.  At the concrete configuration
`events_ignore=99`, handling reason 99 emits a non-empty log (the entry
notice of nmimgr.c:133 fires before the ignore check, and the ignore-drop
notice of nmimgr.c:142 follows) and returns `NMI_HANDLED`, the
consumed value, not `NMI_DONE`. -/
theorem C2_counterexample :
    InList (NmimgrState.events_ignore_list
      { events_panic_list := fun _ => 0, events_ignore_list := slotsOf [99] }) 99 ∧
    (__nmimgr_handle
      { events_panic_list := fun _ => 0, events_ignore_list := slotsOf [99] }
      2 99).2 ≠ [] ∧
    (__nmimgr_handle
      { events_panic_list := fun _ => 0, events_ignore_list := slotsOf [99] }
      2 99).1 ≠ Outcome.NMI_DONE := by
  have h : InList (NmimgrState.events_ignore_list
      { events_panic_list := fun _ => 0, events_ignore_list := slotsOf [99] }) 99 :=
    ⟨1, by decide, by decide, by decide⟩
  have he := handle_of_ignore
    { events_panic_list := fun _ => 0, events_ignore_list := slotsOf [99] } 2 99 h
  refine ⟨h, ?_, ?_⟩ <;> rw [he] <;> simp

/-- C2 amended: when the reason code is in the Ignore category, the handler
returns `NMI_HANDLED` — which consumes the event, so other handlers do NOT
get a chance (the module's own header says ignored events are dropped "so
no other handler can process them") — after emitting exactly two log
lines: the entry notice and the ignore-drop notice.  No further checks run
(no panic log, no unmanaged log). -/
theorem C2_amended_ignore_consumes (st : NmimgrState) (t r : Nat)
    (h : InList st.events_ignore_list r) :
    __nmimgr_handle st t r =
      (Outcome.NMI_HANDLED, [LogEntry.handling t r, LogEntry.ignoreDrop r]) :=
  handle_of_ignore st t r h

/-- C2 witness: the amended statement at the concrete configuration
`events_ignore=99`, reason 99. -/
theorem C2_witness :
    InList (NmimgrState.events_ignore_list
      { events_panic_list := fun _ => 0, events_ignore_list := slotsOf [99] }) 99 ∧
    __nmimgr_handle
      { events_panic_list := fun _ => 0, events_ignore_list := slotsOf [99] }
      3 99 =
      (Outcome.NMI_HANDLED, [LogEntry.handling 3 99, LogEntry.ignoreDrop 99]) := by
  have h : InList (NmimgrState.events_ignore_list
      { events_panic_list := fun _ => 0, events_ignore_list := slotsOf [99] }) 99 :=
    ⟨1, by decide, by decide, by decide⟩
  exact ⟨h, C2_amended_ignore_consumes _ 3 99 h⟩

/-- C3: a reason code in the Panic list that the Ignore list does not match
makes the handler reach the unconditional `panic()` call (nmimgr.c:160),
modelled as the terminal outcome `PanicHalt`; `panic` never returns, so
control never reaches the caller on this path. -/
theorem C3_panic_halts (st : NmimgrState) (t r : Nat)
    (hp : InList st.events_panic_list r)
    (hi : ¬ InList st.events_ignore_list r) :
    (__nmimgr_handle st t r).1 = Outcome.PanicHalt := by
  rw [handle_of_panic st t r hp hi]

/-- C3 witness: with `events_panic=0,1,2,5-12,13,255` and no ignore list,
reason 5 panics. -/
theorem C3_witness :
    InList (NmimgrState.events_panic_list
      { events_panic_list := slotsOf [0, 1, 2, 5, 6, 7, 8, 9, 10, 11, 12, 13, 255],
        events_ignore_list := fun _ => 0 }) 5 ∧
    ¬ InList (NmimgrState.events_ignore_list
      { events_panic_list := slotsOf [0, 1, 2, 5, 6, 7, 8, 9, 10, 11, 12, 13, 255],
        events_ignore_list := fun _ => 0 }) 5 ∧
    (__nmimgr_handle
      { events_panic_list := slotsOf [0, 1, 2, 5, 6, 7, 8, 9, 10, 11, 12, 13, 255],
        events_ignore_list := fun _ => 0 } 1 5).1 = Outcome.PanicHalt := by
  have hp : InList (NmimgrState.events_panic_list
      { events_panic_list := slotsOf [0, 1, 2, 5, 6, 7, 8, 9, 10, 11, 12, 13, 255],
        events_ignore_list := fun _ => 0 }) 5 :=
    ⟨4, by decide, by decide, by decide⟩
  have hi : ¬ InList (fun _ => (0 : Int)) 5 := by
    rintro ⟨i, -, -, h⟩
    simp at h
  exact ⟨hp, hi, C3_panic_halts _ 1 5 hp hi⟩

/-- C4: a reason code that matches neither configured list makes the
handler return `NMI_DONE` (deferring the event to other handlers) after
emitting log entries (the entry notice and the unmanaged notice). -/
theorem C4_unmanaged_done (st : NmimgrState) (t r : Nat)
    (hi : ¬ InList st.events_ignore_list r)
    (hp : ¬ InList st.events_panic_list r) :
    __nmimgr_handle st t r =
      (Outcome.NMI_DONE, [LogEntry.handling t r, LogEntry.unmanaged r]) :=
  handle_of_neither st t r hi hp

/-- C4 witness: with `events_panic=32,48` and `events_ignore=99`, reason 5
matches nothing and is returned unmanaged with the two log entries. -/
theorem C4_witness :
    ¬ InList (NmimgrState.events_ignore_list
      { events_panic_list := slotsOf [32, 48], events_ignore_list := slotsOf [99] }) 5 ∧
    ¬ InList (NmimgrState.events_panic_list
      { events_panic_list := slotsOf [32, 48], events_ignore_list := slotsOf [99] }) 5 ∧
    __nmimgr_handle
      { events_panic_list := slotsOf [32, 48], events_ignore_list := slotsOf [99] }
      1 5 = (Outcome.NMI_DONE, [LogEntry.handling 1 5, LogEntry.unmanaged 5]) := by
  have hi : ¬ InList (slotsOf [99]) 5 :=
    not_InList_slotsOf [99] 5 (by omega) (by decide)
  have hp : ¬ InList (slotsOf [32, 48]) 5 :=
    not_InList_slotsOf [32, 48] 5 (by omega) (by decide)
  exact ⟨hi, hp, C4_unmanaged_done _ 1 5 hi hp⟩

/-- C5: parsing the configuration string "0,1,2,5-12,13,255" succeeds and
yields exactly {0,1,2,5,6,7,8,9,10,11,12,13,255}: single integers and
inclusive ranges are expanded and deduplicated (spec-modelled parser, since
`get_options` of lib/cmdline.c is not in this repository). -/
theorem C5_parse_example :
    parse "0,1,2,5-12,13,255" =
      Except.ok [0, 1, 2, 5, 6, 7, 8, 9, 10, 11, 12, 13, 255] := by decide

/-- C6: parsing is atomic with respect to errors.  For any input string,
either parsing fails and both setup functions leave the freshly-loaded
state untouched (so the affected category's array keeps its all-zero,
empty-set contents), or parsing succeeds and the category array holds the
complete parsed set; no partially filled set is ever produced. -/
theorem C6_setup_atomic (str : String) :
    (∀ e, parse str = Except.error e →
      nmimgr_setup_panic initState str = (initState, 0) ∧
      nmimgr_setup_ignore initState str = (initState, 0)) ∧
    (∀ vals, parse str = Except.ok vals →
      nmimgr_setup_panic initState str =
        ({ initState with events_panic_list := slotsOf vals }, 1) ∧
      nmimgr_setup_ignore initState str =
        ({ initState with events_ignore_list := slotsOf vals }, 1)) := by
  constructor
  · intro e he
    unfold nmimgr_setup_panic nmimgr_setup_ignore
    rw [he]
    exact ⟨rfl, rfl⟩
  · intro vals hv
    unfold nmimgr_setup_panic nmimgr_setup_ignore
    rw [hv]
    exact ⟨rfl, rfl⟩

/-- C6 witness: the malformed input "abc" fails to parse, and both setup
functions leave the state untouched and return 0. -/
theorem C6_witness :
    parse "abc" = Except.error (ParseError.malformed "abc") ∧
    nmimgr_setup_panic initState "abc" = (initState, 0) ∧
    nmimgr_setup_ignore initState "abc" = (initState, 0) := by
  have h : parse "abc" = Except.error (ParseError.malformed "abc") := by decide
  exact ⟨h, (C6_setup_atomic "abc").1 _ h⟩

/-- C8: registration is all-or-nothing.  For every host behavior, success
(return 0) is reported exactly when all three sources bind, in which case
all three are bound; on any failure, the rollback loop leaves exactly zero
sources bound before the host's error code is returned. -/
theorem C8_register_rollback (regRet : Nat → Int) :
    ((nmimgr_register regRet).1 = 0 ↔
      regRet NMI_UNKNOWN = 0 ∧ regRet NMI_SERR = 0 ∧ regRet NMI_IO_CHECK = 0) ∧
    ((nmimgr_register regRet).1 = 0 →
      (nmimgr_register regRet).2 = [NMI_UNKNOWN, NMI_SERR, NMI_IO_CHECK]) ∧
    ((nmimgr_register regRet).1 ≠ 0 → (nmimgr_register regRet).2 = []) := by
  have r0 : rollback_unregister (NMI_UNKNOWN - 1) [] = [] := by decide
  have r1 : rollback_unregister (NMI_SERR - 1) [NMI_UNKNOWN] = [] := by decide
  have r2 : rollback_unregister (NMI_IO_CHECK - 1) [NMI_UNKNOWN, NMI_SERR] = [] := by
    decide
  by_cases h1 : regRet NMI_UNKNOWN = 0 <;>
    by_cases h2 : regRet NMI_SERR = 0 <;>
      by_cases h3 : regRet NMI_IO_CHECK = 0 <;>
        simp [nmimgr_register, h1, h2, h3, r0, r1, r2]

/-- C8 witness: when the host refuses the second source (NMI_SERR), the
call fails and zero sources remain bound — the first source was rolled
back. -/
theorem C8_witness :
    (nmimgr_register (fun t => if t = 2 then 1 else 0)).1 ≠ 0 ∧
    (nmimgr_register (fun t => if t = 2 then 1 else 0)).2 = [] := by
  have hne : (nmimgr_register (fun t => if t = 2 then 1 else 0)).1 ≠ 0 := by decide
  exact ⟨hne, (C8_register_rollback (fun t => if t = 2 then 1 else 0)).2.2 hne⟩

/-- C9: the zero-sentinel edge case.  Whenever the ignore list is filled
with fewer than 255 values (the empty case included) and 0 was never
listed, some scanned slot still holds its zero default, and the handler
returns `NMI_HANDLED` for reason code 0 anyway: the match loops scan all
slots 1..255 without consulting the filled count in slot 0. -/
theorem C9_zero_sentinel (vals : List Nat) (pl : Nat → Int) (t : Nat)
    (hlen : vals.length < 255) (h0 : 0 ∉ vals) :
    (__nmimgr_handle
      { events_panic_list := pl, events_ignore_list := slotsOf vals } t 0).1 =
      Outcome.NMI_HANDLED := by
  have h : InList (slotsOf vals) 0 := by
    refine ⟨vals.length + 1, by omega, by omega, ?_⟩
    unfold slotsOf
    rw [if_neg (by omega), List.getD_eq_default _ _ (by omega)]
  rw [handle_of_ignore _ t 0 h]

/-- C9 witness: `events_ignore=99` fills one slot; reason 0 is handled even
though it was never listed. -/
theorem C9_witness :
    [99].length < 255 ∧ (0 : Nat) ∉ [99] ∧
    (__nmimgr_handle
      { events_panic_list := fun _ => 0, events_ignore_list := slotsOf [99] }
      2 0).1 = Outcome.NMI_HANDLED :=
  ⟨by decide, by decide, C9_zero_sentinel [99] (fun _ => 0) 2 (by decide) (by decide)⟩

/-- C10: source-independence.  For a fixed configuration state, the outcome
of the handler depends only on the reason code, never on the NMI type
argument (which is only echoed into the entry log line). -/
theorem C10_type_independent (st : NmimgrState) (t1 t2 r : Nat) :
    (__nmimgr_handle st t1 r).1 = (__nmimgr_handle st t2 r).1 := by
  unfold __nmimgr_handle
  cases hig : nmi_list_match st.events_ignore_list r <;>
    cases hpa : nmi_list_match st.events_panic_list r <;>
      simp [hig, hpa]
